import Mathlib

set_option maxRecDepth 8192

/-!
A verification development for the Swagger/OpenAPI endpoint script generator
(`core.py` plus its desktop shell).  The core pipeline is embedded shallowly:

* JSON/YAML-style documents become the `JVal` tree and `Doc` association lists
  (Python dicts are insertion ordered, which association lists preserve);
* `fetch_spec`'s parse-format policy, `list_endpoints`, `generate_script`
  (base-URL resolution, parameter bucketing, path substitution, language
  dispatch) and the four code renderers are translated function by function;
* Python string builtins used by the source (`str.replace`, `str.lower`,
  `str.upper`, `str.capitalize`, `'&'.join`, `in`-substring tests,
  `json.dumps` on string-valued dicts) are given explicit executable models.

Error raising (`KeyError`, `IndexError`, `TypeError`, and the explicit
`raise Exception` sites) is modelled with `Except`.  The HTTP fetch itself is
modelled by passing the response pieces (status, content type, body text) and
the JSON/YAML parsers as explicit inputs.
-/

/-- A JSON/YAML-like value: the object model produced by `json.loads` /
`yaml.safe_load` as far as the core uses it.  Objects are association lists,
preserving the insertion order of Python dicts. -/
inductive JVal where
  | str : String → JVal
  | num : Int → JVal
  | arr : List JVal → JVal
  | obj : List (String × JVal) → JVal

/-- A JSON object (Python dict with string keys): an insertion-ordered
association list. -/
def Doc := List (String × JVal)

/-- Python `d.get(k)` / `d[k]` lookup on an object: first binding wins
(Python dicts have unique keys, so first-match lookup agrees). -/
def lookupKey (d : Doc) (k : String) : Option JVal :=
  match d with
  | [] => none
  | (k', v) :: rest => if k' == k then some v else lookupKey rest k

/-- Python `d.get(k, dflt)`. -/
def getKeyD (d : Doc) (k : String) (dflt : JVal) : JVal :=
  (lookupKey d k).getD dflt

/-- Lookup in a string-valued dict (the parameter-value map supplied by the
caller), mirroring `param_values.get(name)`. -/
def lookupVal (pv : List (String × String)) (k : String) : Option String :=
  match pv with
  | [] => none
  | (k', v) :: rest => if k' == k then some v else lookupVal rest k

/-- Python `d[k] = v` on a string-valued dict: update in place if the key is
present (keeping its position), else append, as Python dicts do. -/
def dictInsert (d : List (String × String)) (k v : String) : List (String × String) :=
  match d with
  | [] => [(k, v)]
  | (k', v') :: rest => if k' == k then (k, v) :: rest else (k', v') :: dictInsert rest k v

/-- Python `value == "lit"` where `value` is a spec-document value: true
exactly when the value is the string `lit`. -/
def jvalIsStr (v : JVal) (lit : String) : Bool :=
  match v with
  | .str s => s == lit
  | _ => false

/-- ASCII `str.lower` (the source only compares ASCII method / content-type
strings). -/
def pyLower (s : String) : String := ⟨s.data.map Char.toLower⟩

/-- ASCII `str.upper`. -/
def pyUpper (s : String) : String := ⟨s.data.map Char.toUpper⟩

/-- Python `str.capitalize`: first character uppercased, the rest lowercased. -/
def pyCapitalize (s : String) : String :=
  match s.data with
  | [] => ""
  | c :: rest => ⟨c.toUpper :: rest.map Char.toLower⟩

/-- Python `pat in s` substring test, on character lists. -/
def containsSub (pat : List Char) : List Char → Bool
  | [] => pat.isEmpty
  | c :: rest => pat.isPrefixOf (c :: rest) || containsSub pat rest

/-- Python `pat in s` substring test on strings. -/
def hasSubstr (s pat : String) : Bool := containsSub pat.data s.data

/-- Python `s.endswith(t)`. -/
def pyEndsWith (s t : String) : Bool := t.data.isSuffixOf s.data

/-- Worker for `str.replace`: scans left to right, replacing each
(non-overlapping) occurrence of `pat`.  The fuel argument (instantiated with
the length of the scanned list, which bounds the number of steps) keeps the
recursion structural so that concrete instances evaluate. -/
def replaceAllFuel (pat rep : List Char) : Nat → List Char → List Char
  | 0, s => s
  | _ + 1, [] => []
  | fuel + 1, c :: rest =>
    if pat.isPrefixOf (c :: rest) then
      rep ++ replaceAllFuel pat rep fuel ((c :: rest).drop pat.length)
    else
      c :: replaceAllFuel pat rep fuel rest

/-- Python `s.replace(pat, rep)` (all occurrences, left to right,
non-overlapping).  The source never calls it with an empty pattern (patterns
are brace-wrapped names); that unused case returns `s` unchanged. -/
def pyReplace (s pat rep : String) : String :=
  if pat.data.isEmpty then s
  else ⟨replaceAllFuel pat.data rep.data s.data.length s.data⟩

/-- One hex digit, lowercase (as `json.dumps` emits). -/
def hexDigit (n : Nat) : Char :=
  if n < 10 then Char.ofNat (48 + n) else Char.ofNat (87 + n)

/-- Four lowercase hex digits. -/
def hex4 (n : Nat) : String :=
  ⟨[hexDigit (n / 4096 % 16), hexDigit (n / 256 % 16), hexDigit (n / 16 % 16), hexDigit (n % 16)]⟩

/-- `json.dumps` escaping of one character of a string value (default
`ensure_ascii=True` settings: the two mandatory escapes, the short control
escapes, `\uXXXX` for other control or non-ASCII characters, surrogate pairs
above the BMP). -/
def jsonEscapeChar (c : Char) : String :=
  if c == '"' then "\\\""
  else if c == '\\' then "\\\\"
  else if c == '\n' then "\\n"
  else if c == '\r' then "\\r"
  else if c == '\t' then "\\t"
  else if c.toNat == 8 then "\\b"
  else if c.toNat == 12 then "\\f"
  else if c.toNat < 32 || c.toNat > 126 then
    if c.toNat ≤ 65535 then "\\u" ++ hex4 c.toNat
    else "\\u" ++ hex4 (55296 + (c.toNat - 65536) / 1024) ++ "\\u" ++ hex4 (56320 + (c.toNat - 65536) % 1024)
  else ⟨[c]⟩

/-- `json.dumps` of a string literal. -/
def jsonQuote (s : String) : String :=
  "\"" ++ String.join (s.data.map jsonEscapeChar) ++ "\""

/-- `json.dumps` of a string-valued dict (the only shape the renderers dump):
`\x7b"k": "v", ...\x7d` with the default `", "` / `": "` separators. -/
def jsonDumps (d : List (String × String)) : String :=
  "\x7b" ++ String.intercalate ", " (d.map (fun kv => jsonQuote kv.1 ++ ": " ++ jsonQuote kv.2)) ++ "\x7d"

/-- `'&'.join(f"..." for k, v in d.items())` building a `k=v` query string. -/
def queryJoin (d : List (String × String)) : String :=
  String.intercalate "&" (d.map (fun kv => kv.1 ++ "=" ++ kv.2))

/-- The specification document, restricted to the shape the core reads:
`paths` is a mapping from path templates to mappings from method keys to
operation objects; `servers` is the OpenAPI 3 server list; `host`,
`basePath`, `schemes` are the Swagger 2.0 fields.  A `none` field models the
key being absent.  (The source would raise a `TypeError`-style error on
documents where these keys hold other shapes; no behaviour claimed about the
program concerns such documents.) -/
structure SpecDoc where
  paths : Option (List (String × List (String × Doc)))
  servers : Option (List Doc)
  host : Option String
  basePath : Option String
  schemes : Option (List String)

/-- The endpoint descriptor built by `list_endpoints`: the dict
`\x7b'method', 'path', 'summary', 'operationId', 'parameters'\x7d`.  `method`
and `path` are the strings the source stores there; the remaining fields are
document values copied verbatim (with their defaults). -/
structure Endpoint where
  method : String
  path : String
  summary : JVal
  operationId : JVal
  parameters : JVal

/-- Errors of the loading stage: the `raise Exception` for a non-200 status
and the `raise Exception` parse failures (the spec's `FetchError` /
`ParseError`), each carrying the message text. -/
inductive SpecError where
  | fetchError : Nat → SpecError
  | parseError : String → SpecError
deriving DecidableEq

/-- The JSON detection condition of `fetch_spec`:
`'application/json' in content_type or url.endswith('.json')` (the content
type has already been lowercased by the caller, as the source lowercases it
once; this definition lowercases it itself). -/
def jsonDetect (contentType url : String) : Bool :=
  hasSubstr (pyLower contentType) "application/json" || pyEndsWith url ".json"

/-- The YAML detection condition of `fetch_spec`. -/
def yamlDetect (contentType url : String) : Bool :=
  hasSubstr (pyLower contentType) "application/yaml" ||
    hasSubstr (pyLower contentType) "application/x-yaml" ||
    pyEndsWith url ".yaml" || pyEndsWith url ".yml"

/-- The parse stage of `fetch_spec`, given the response pieces and the two
parsers (`json.loads` and `yaml.safe_load` are external libraries, passed as
explicit fallible functions).  Mirrors the three-branch detection policy and
the error messages of the source. -/
def parseSpecText (contentType url text : String)
    (jp yp : String → Except String JVal) : Except SpecError JVal :=
  if jsonDetect contentType url then
    match jp text with
    | .ok v => .ok v
    | .error e => .error (.parseError ("Failed to parse JSON specification: " ++ e))
  else if yamlDetect contentType url then
    match yp text with
    | .ok v => .ok v
    | .error e => .error (.parseError ("Failed to parse YAML specification: " ++ e))
  else
    match jp text with
    | .ok v => .ok v
    | .error _ =>
      match yp text with
      | .ok v => .ok v
      | .error e => .error (.parseError ("Failed to parse specification as JSON or YAML: " ++ e))

/-- `fetch_spec`, with the HTTP response modelled as explicit inputs
(status code, content-type header, body text): a non-200 status raises, else
the body is parsed under the format-detection policy. -/
def fetch_spec (status : Nat) (contentType url text : String)
    (jp yp : String → Except String JVal) : Except SpecError JVal :=
  if status ≠ 200 then .error (.fetchError status)
  else parseSpecText contentType url text jp yp

/-- The parse format(s) `fetch_spec`'s policy selects, in attempt order, as
the spec describes them: JSON when the JSON condition holds, else YAML when
the YAML condition holds, else JSON then YAML. -/
inductive SpecFormat where
  | json : SpecFormat
  | yaml : SpecFormat
deriving DecidableEq

/-- The ordered list of formats chosen by the detection policy (spec
section 4.1, used to state claim C9 against `parseSpecText`). -/
def chosenFormats (contentType url : String) : List SpecFormat :=
  if jsonDetect contentType url then [.json]
  else if yamlDetect contentType url then [.yaml]
  else [.json, .yaml]

/-- Run one format's parser. -/
def runFormat (jp yp : String → Except String JVal) (f : SpecFormat) (text : String) :
    Except String JVal :=
  match f with
  | .json => jp text
  | .yaml => yp text

/-- `Except` success test. -/
def exceptOk {ε α : Type} (r : Except ε α) : Bool :=
  match r with
  | .ok _ => true
  | .error _ => false

/-- The seven HTTP verbs `list_endpoints` accepts (lowercased). -/
def httpMethods : List String :=
  ["get", "post", "put", "delete", "patch", "options", "head"]

/-- One endpoint dict as `list_endpoints` appends it. -/
def mkEndpoint (method path : String) (operation : Doc) : Endpoint :=
  { method := pyUpper method
    path := path
    summary := getKeyD operation "summary" (.str "")
    operationId := getKeyD operation "operationId" (.str "")
    parameters := getKeyD operation "parameters" (.arr []) }

/-- The inner loop of `list_endpoints` over one path's method map, carrying
the accumulated endpoint list (the Python code appends to a shared list). -/
def addPathEndpoints (path : String) (acc : List Endpoint) :
    List (String × Doc) → List Endpoint
  | [] => acc
  | (method, operation) :: rest =>
    if httpMethods.contains (pyLower method) then
      addPathEndpoints path (acc ++ [mkEndpoint method path operation]) rest
    else
      addPathEndpoints path acc rest

/-- The outer loop of `list_endpoints` over `paths.items()`. -/
def listEndpointsAux (acc : List Endpoint) :
    List (String × List (String × Doc)) → List Endpoint
  | [] => acc
  | (path, methods) :: rest => listEndpointsAux (addPathEndpoints path acc methods) rest

/-- `list_endpoints`: walks `spec.get('paths', \x7b\x7d)` in document order,
skipping method keys that are not (case-insensitively) one of the seven HTTP
verbs, and collects endpoint dicts. -/
def list_endpoints (spec : SpecDoc) : List Endpoint :=
  listEndpointsAux [] (spec.paths.getD [])

/-- Errors `generate_script` can raise: Python `KeyError` (carrying the
missing key), `IndexError`, `TypeError` on dict/list misuse, and the explicit
`raise Exception("Unsupported language: ...")` (the spec's
`UnsupportedLanguageError`), carrying the language name. -/
inductive GenError where
  | keyError : String → GenError
  | indexError : GenError
  | typeError : GenError
  | unsupportedLanguage : String → GenError
deriving DecidableEq

/-- The url of `servers[0]`: `servers[0]['url']` (a `KeyError` if absent; the
source then splices it into strings, so a non-string value is a type
error). -/
def serverUrl (srv : Doc) : Except GenError String :=
  match lookupKey srv "url" with
  | some (.str u) => .ok u
  | some _ => .error .typeError
  | none => .error (.keyError "url")

/-- The Swagger 2.0 synthesis branch of the base URL:
`f"\x7bschemes[0]\x7d://\x7bhost\x7d\x7bbase_path\x7d"` with
`host = spec.get('host', '')`, `base_path = spec.get('basePath', '')`,
`schemes = spec.get('schemes', ['https'])` (so a present-but-empty `schemes`
list is an `IndexError`). -/
def synthBaseUrl (spec : SpecDoc) : Except GenError String :=
  match spec.schemes.getD ["https"] with
  | [] => .error .indexError
  | scheme :: _ => .ok (scheme ++ "://" ++ spec.host.getD "" ++ spec.basePath.getD "")

/-- Base-URL resolution of `generate_script`: `servers = spec.get('servers', [])`;
if that list is truthy (non-empty) use `servers[0]['url']`, else synthesize
from the Swagger 2.0 fields. -/
def resolveBaseUrl (spec : SpecDoc) : Except GenError String :=
  match spec.servers.getD [] with
  | [] => synthBaseUrl spec
  | srv :: _ => serverUrl srv

/-- `spec['paths'][path][method]`: three subscript lookups, each raising
`KeyError` with the missing key. -/
def findOperation (spec : SpecDoc) (path method : String) : Except GenError Doc :=
  match spec.paths with
  | none => .error (.keyError "paths")
  | some ps =>
    match ps.lookup path with
    | none => .error (.keyError path)
    | some methods =>
      match methods.lookup method with
      | none => .error (.keyError method)
      | some op => .ok op

/-- `operation.get('parameters', [])`, which the source then iterates: a
non-list value is modelled as a type error. -/
def getParamList (operation : Doc) : Except GenError (List JVal) :=
  match getKeyD operation "parameters" (.arr []) with
  | .arr l => .ok l
  | _ => .error .typeError

/-- The per-call parameter buckets of `generate_script` (`path_params`,
`query_params`, `header_params`, `body_param`, `form_params`). -/
structure Buckets where
  path_params : List (String × String)
  query_params : List (String × String)
  header_params : List (String × String)
  body_param : Option String
  form_params : List (String × String)
deriving DecidableEq

/-- The initial (empty) buckets. -/
def Buckets.empty : Buckets := ⟨[], [], [], none, []⟩

/-- One iteration of the parameter loop: read `param['name']` (a `KeyError`
if absent; the name is then used as a dict key and in an f-string, so a
non-string name is modelled as a type error), look its value up in
`param_values` with default `''`, read `param['in']` (a `KeyError` if
absent) and bucket accordingly; an unrecognized `in` leaves all buckets
unchanged. -/
def bucketStep (pv : List (String × String)) (b : Buckets) (p : JVal) : Except GenError Buckets :=
  match p with
  | .obj pd =>
    match lookupKey pd "name" with
    | some (.str name) =>
      let value := (lookupVal pv name).getD ""
      match lookupKey pd "in" with
      | some loc =>
        if jvalIsStr loc "path" then .ok { b with path_params := b.path_params ++ [(name, value)] }
        else if jvalIsStr loc "query" then .ok { b with query_params := dictInsert b.query_params name value }
        else if jvalIsStr loc "header" then .ok { b with header_params := dictInsert b.header_params name value }
        else if jvalIsStr loc "body" then .ok { b with body_param := some value }
        else if jvalIsStr loc "formData" then .ok { b with form_params := dictInsert b.form_params name value }
        else .ok b
      | none => .error (.keyError "in")
    | some _ => .error .typeError
    | none => .error (.keyError "name")
  | _ => .error .typeError

/-- The parameter loop of `generate_script` over `operation['parameters']`. -/
def bucketParams (pv : List (String × String)) : List JVal → Buckets → Except GenError Buckets
  | [], b => .ok b
  | p :: rest, b =>
    match bucketStep pv b p with
    | .ok b' => bucketParams pv rest b'
    | .error e => .error e

/-- The path-substitution loop of `generate_script`: for each bucketed path
parameter in declaration order, `url = url.replace(f"\x7b\x7bname\x7d\x7d", str(value))`
(the values are already strings, so `str` is the identity). -/
def substPath (pps : List (String × String)) (url : String) : String :=
  match pps with
  | [] => url
  | (name, value) :: rest => substPath rest (pyReplace url ("\x7b" ++ name ++ "\x7d") value)

/-- Python truthiness of `body_param` (initialized to `None`, possibly set to
a string value): `None` and `''` are falsy. -/
def truthyOpt (b : Option String) : Bool :=
  match b with
  | none => false
  | some s => s != ""

/-- `generate_python_code`: the Python renderer, line for line.  Note the two
independent `if`s appending the `json=` and `data=` arguments, and the
unconditional `params = ...` / `headers = ...` assignment lines. -/
def generate_python_code (url method : String) (query_params header_params : List (String × String))
    (body_param : Option String) (form_params : List (String × String)) : String :=
  let code := "import requests\n\n"
  let code := code ++ ("url = '" ++ url ++ "'\n")
  let code := code ++ (if query_params ≠ [] then "params = " ++ jsonDumps query_params ++ "\n"
    else "params = \x7b\x7d\n")
  let code := code ++ (if header_params ≠ [] then "headers = " ++ jsonDumps header_params ++ "\n"
    else "headers = \x7b\x7d\n")
  let code := code ++ (if truthyOpt body_param then "json_body = " ++ body_param.getD "" ++ "\n"
    else "json_body = None\n")
  let code := code ++ (if form_params ≠ [] then "data = " ++ jsonDumps form_params ++ "\n"
    else "data = None\n")
  let code := code ++ ("response = requests." ++ method ++ "(\n")
  let code := code ++ "    url,\n"
  let code := code ++ "    params=params,\n"
  let code := code ++ "    headers=headers,\n"
  let code := code ++ (if truthyOpt body_param then "    json=json_body,\n" else "")
  let code := code ++ (if form_params ≠ [] then "    data=data,\n" else "")
  let code := code ++ ")\n"
  let code := code ++ "print('Status Code:', response.status_code)\n"
  let code := code ++ "print('Response Body:', response.text)\n"
  code

/-- `generate_csharp_code`: the C# renderer, line for line (here body and
form are an `if`/`elif`/`else` chain). -/
def generate_csharp_code (url method : String) (query_params header_params : List (String × String))
    (body_param : Option String) (form_params : List (String × String)) : String :=
  let code := "using System;\nusing System.Net.Http;\nusing System.Threading.Tasks;\nusing Newtonsoft.Json;\n\n"
  let code := code ++ "class Program\n\x7b\n"
  let code := code ++ "    static async Task Main(string[] args)\n    \x7b\n"
  let code := code ++ "        var client = new HttpClient();\n"
  let code := code ++ ("        var url = \"" ++ url ++ "\";\n")
  let code := code ++ (if query_params ≠ [] then "        url += \"?" ++ queryJoin query_params ++ "\";\n" else "")
  let code := code ++ (if header_params ≠ [] then
      String.join (header_params.map (fun kv =>
        "        client.DefaultRequestHeaders.Add(\"" ++ kv.1 ++ "\", \"" ++ kv.2 ++ "\");\n"))
    else "")
  let code := code ++ (if truthyOpt body_param then
      "        var jsonBody = " ++ body_param.getD "" ++ ";\n" ++
      "        var content = new StringContent(JsonConvert.SerializeObject(jsonBody), System.Text.Encoding.UTF8, \"application/json\");\n"
    else if form_params ≠ [] then
      "        var content = new FormUrlEncodedContent(new[]\n        \x7b\n" ++
      String.join (form_params.map (fun kv =>
        "            new KeyValuePair<string, string>(\"" ++ kv.1 ++ "\", \"" ++ kv.2 ++ "\"),\n")) ++
      "        \x7d);\n"
    else "        HttpContent content = null;\n")
  let code := code ++ ("        var response = await client." ++ pyCapitalize method ++ "Async(url, content);\n")
  let code := code ++ "        var responseString = await response.Content.ReadAsStringAsync();\n"
  let code := code ++ "        Console.WriteLine($\"Status Code: \x7bresponse.StatusCode\x7d\");\n"
  let code := code ++ "        Console.WriteLine($\"Response Body: \x7bresponseString\x7d\");\n"
  let code := code ++ "    \x7d\n\x7d\n"
  code

/-- `generate_javascript_code`: the JavaScript renderer, line for line. -/
def generate_javascript_code (url method : String) (query_params header_params : List (String × String))
    (body_param : Option String) (form_params : List (String × String)) : String :=
  let code := "const fetch = require('node-fetch');\n\n"
  let code := code ++ ("let url = '" ++ url ++ "';\n")
  let code := code ++ (if query_params ≠ [] then "url += '?" ++ queryJoin query_params ++ "';\n" else "")
  let code := code ++ "const options = \x7b\n"
  let code := code ++ ("    method: '" ++ pyUpper method ++ "',\n")
  let code := code ++ (if header_params ≠ [] then
      "    headers: \x7b\n" ++
      String.join (header_params.map (fun kv => "        '" ++ kv.1 ++ "': '" ++ kv.2 ++ "',\n")) ++
      "    \x7d,\n"
    else "")
  let code := code ++ (if truthyOpt body_param then
      "    body: JSON.stringify(" ++ body_param.getD "" ++ "),\n"
    else if form_params ≠ [] then
      "    body: new URLSearchParams(\x7b\n" ++
      String.join (form_params.map (fun kv => "        '" ++ kv.1 ++ "': '" ++ kv.2 ++ "',\n")) ++
      "    \x7d),\n"
    else "")
  let code := code ++ "\x7d;\n"
  let code := code ++ "fetch(url, options)\n"
  let code := code ++ "    .then(response => response.text())\n"
  let code := code ++ "    .then(text => \x7b\n"
  let code := code ++ "        console.log('Response Body:', text);\n"
  let code := code ++ "    \x7d)\n"
  let code := code ++ "    .catch(err => console.error('Error:', err));\n"
  code

/-- `generate_php_code`: the PHP renderer, line for line. -/
def generate_php_code (url method : String) (query_params header_params : List (String × String))
    (body_param : Option String) (form_params : List (String × String)) : String :=
  let code := "<?php\n"
  let code := code ++ "$ch = curl_init();\n"
  let code := code ++ (if query_params ≠ [] then "$url = '" ++ url ++ "?" ++ queryJoin query_params ++ "';\n"
    else "$url = '" ++ url ++ "';\n")
  let code := code ++ "curl_setopt($ch, CURLOPT_URL, $url);\n"
  let code := code ++ ("curl_setopt($ch, CURLOPT_CUSTOMREQUEST, '" ++ pyUpper method ++ "');\n")
  let code := code ++ "curl_setopt($ch, CURLOPT_RETURNTRANSFER, true);\n"
  let code := code ++ (if header_params ≠ [] then
      "$headers = [\n" ++
      String.join (header_params.map (fun kv => "    '" ++ kv.1 ++ ": " ++ kv.2 ++ "',\n")) ++
      "];\n" ++ "curl_setopt($ch, CURLOPT_HTTPHEADER, $headers);\n"
    else "")
  let code := code ++ (if truthyOpt body_param then
      "$data = json_encode(" ++ body_param.getD "" ++ ");\n" ++
      "curl_setopt($ch, CURLOPT_POSTFIELDS, $data);\n"
    else if form_params ≠ [] then
      "$data = http_build_query([\n" ++
      String.join (form_params.map (fun kv => "    '" ++ kv.1 ++ "' => '" ++ kv.2 ++ "',\n")) ++
      "]);\n" ++ "curl_setopt($ch, CURLOPT_POSTFIELDS, $data);\n"
    else "")
  let code := code ++ "$response = curl_exec($ch);\n"
  let code := code ++ "curl_close($ch);\n"
  let code := code ++ "echo 'Response Body: ' . $response;\n"
  let code := code ++ "?>\n"
  code

/-- The four language names `generate_script` recognizes, in dispatch order. -/
def supportedLanguages : List String := ["Python", "C#", "JavaScript", "PHP"]

/-- The language dispatch at the end of `generate_script`. -/
def renderCode (language url method : String) (b : Buckets) : Except GenError String :=
  if language = "Python" then
    .ok (generate_python_code url method b.query_params b.header_params b.body_param b.form_params)
  else if language = "C#" then
    .ok (generate_csharp_code url method b.query_params b.header_params b.body_param b.form_params)
  else if language = "JavaScript" then
    .ok (generate_javascript_code url method b.query_params b.header_params b.body_param b.form_params)
  else if language = "PHP" then
    .ok (generate_php_code url method b.query_params b.header_params b.body_param b.form_params)
  else .error (.unsupportedLanguage language)

/-- Everything `generate_script` does before the language dispatch, in source
order: base-URL resolution, `method = endpoint['method'].lower()`, the
`spec['paths'][path][method]` lookup, the parameter loop, and path
substitution.  Returns the bound URL, the lowercased method and the
buckets. -/
def genPrep (spec : SpecDoc) (endpoint : Endpoint) (param_values : List (String × String)) :
    Except GenError (String × String × Buckets) :=
  match resolveBaseUrl spec with
  | .error e => .error e
  | .ok base_url =>
    let method := pyLower endpoint.method
    match findOperation spec endpoint.path method with
    | .error e => .error e
    | .ok operation =>
      match getParamList operation with
      | .error e => .error e
      | .ok params =>
        match bucketParams param_values params Buckets.empty with
        | .error e => .error e
        | .ok b => .ok (substPath b.path_params (base_url ++ endpoint.path), method, b)

/-- `generate_script(spec, endpoint, param_values, language)`. -/
def generate_script (spec : SpecDoc) (endpoint : Endpoint)
    (param_values : List (String × String)) (language : String) : Except GenError String :=
  match genPrep spec endpoint param_values with
  | .error e => .error e
  | .ok (url, method, b) => renderCode language url method b

/-- The text of a successful generation (empty string on error); used to
state substring facts about concrete runs. -/
def okString (r : Except GenError String) : String :=
  match r with
  | .ok s => s
  | .error _ => ""

/-- The error of a failed call, if any. -/
def errOf {α : Type} (r : Except GenError α) : Option GenError :=
  match r with
  | .error e => some e
  | .ok _ => none

/-- Whether a result is the `Unsupported language` failure. -/
def isUnsupportedLangErr (r : Except GenError String) : Bool :=
  match r with
  | .error (.unsupportedLanguage _) => true
  | _ => false

/-- Claim C6's wording of base-URL resolution: `document.servers[0].url`
whenever the `servers` key is present (for a present-but-empty list,
`servers[0]` is an `IndexError`), else the Swagger 2.0 synthesis.  To be
compared with `resolveBaseUrl`, which tests truthiness rather than
presence. -/
def baseUrlClaimC6 (spec : SpecDoc) : Except GenError String :=
  match spec.servers with
  | some [] => .error .indexError
  | some (srv :: _) => serverUrl srv
  | none => synthBaseUrl spec

/-- The amended C6 wording: `servers[0].url` when the `servers` key is
present with a non-empty list; otherwise the Swagger 2.0 synthesis. -/
def baseUrlAmendedC6 (spec : SpecDoc) : Except GenError String :=
  match spec.servers with
  | some (srv :: _) => serverUrl srv
  | _ => synthBaseUrl spec

/-- The C# renderer with the header-parameter emission removed, for stating
C3 ("header code absent entirely when there are no header parameters"). -/
def csharpNoHeaderCode (url method : String) (query_params : List (String × String))
    (body_param : Option String) (form_params : List (String × String)) : String :=
  let code := "using System;\nusing System.Net.Http;\nusing System.Threading.Tasks;\nusing Newtonsoft.Json;\n\n"
  let code := code ++ "class Program\n\x7b\n"
  let code := code ++ "    static async Task Main(string[] args)\n    \x7b\n"
  let code := code ++ "        var client = new HttpClient();\n"
  let code := code ++ ("        var url = \"" ++ url ++ "\";\n")
  let code := code ++ (if query_params ≠ [] then "        url += \"?" ++ queryJoin query_params ++ "\";\n" else "")
  let code := code ++ (if truthyOpt body_param then
      "        var jsonBody = " ++ body_param.getD "" ++ ";\n" ++
      "        var content = new StringContent(JsonConvert.SerializeObject(jsonBody), System.Text.Encoding.UTF8, \"application/json\");\n"
    else if form_params ≠ [] then
      "        var content = new FormUrlEncodedContent(new[]\n        \x7b\n" ++
      String.join (form_params.map (fun kv =>
        "            new KeyValuePair<string, string>(\"" ++ kv.1 ++ "\", \"" ++ kv.2 ++ "\"),\n")) ++
      "        \x7d);\n"
    else "        HttpContent content = null;\n")
  let code := code ++ ("        var response = await client." ++ pyCapitalize method ++ "Async(url, content);\n")
  let code := code ++ "        var responseString = await response.Content.ReadAsStringAsync();\n"
  let code := code ++ "        Console.WriteLine($\"Status Code: \x7bresponse.StatusCode\x7d\");\n"
  let code := code ++ "        Console.WriteLine($\"Response Body: \x7bresponseString\x7d\");\n"
  let code := code ++ "    \x7d\n\x7d\n"
  code

/-- The JavaScript renderer with the header-parameter emission removed, for
stating C3. -/
def jsNoHeaderCode (url method : String) (query_params : List (String × String))
    (body_param : Option String) (form_params : List (String × String)) : String :=
  let code := "const fetch = require('node-fetch');\n\n"
  let code := code ++ ("let url = '" ++ url ++ "';\n")
  let code := code ++ (if query_params ≠ [] then "url += '?" ++ queryJoin query_params ++ "';\n" else "")
  let code := code ++ "const options = \x7b\n"
  let code := code ++ ("    method: '" ++ pyUpper method ++ "',\n")
  let code := code ++ (if truthyOpt body_param then
      "    body: JSON.stringify(" ++ body_param.getD "" ++ "),\n"
    else if form_params ≠ [] then
      "    body: new URLSearchParams(\x7b\n" ++
      String.join (form_params.map (fun kv => "        '" ++ kv.1 ++ "': '" ++ kv.2 ++ "',\n")) ++
      "    \x7d),\n"
    else "")
  let code := code ++ "\x7d;\n"
  let code := code ++ "fetch(url, options)\n"
  let code := code ++ "    .then(response => response.text())\n"
  let code := code ++ "    .then(text => \x7b\n"
  let code := code ++ "        console.log('Response Body:', text);\n"
  let code := code ++ "    \x7d)\n"
  let code := code ++ "    .catch(err => console.error('Error:', err));\n"
  code

/-- The PHP renderer with the header-parameter emission removed, for stating
C3. -/
def phpNoHeaderCode (url method : String) (query_params : List (String × String))
    (body_param : Option String) (form_params : List (String × String)) : String :=
  let code := "<?php\n"
  let code := code ++ "$ch = curl_init();\n"
  let code := code ++ (if query_params ≠ [] then "$url = '" ++ url ++ "?" ++ queryJoin query_params ++ "';\n"
    else "$url = '" ++ url ++ "';\n")
  let code := code ++ "curl_setopt($ch, CURLOPT_URL, $url);\n"
  let code := code ++ ("curl_setopt($ch, CURLOPT_CUSTOMREQUEST, '" ++ pyUpper method ++ "');\n")
  let code := code ++ "curl_setopt($ch, CURLOPT_RETURNTRANSFER, true);\n"
  let code := code ++ (if truthyOpt body_param then
      "$data = json_encode(" ++ body_param.getD "" ++ ");\n" ++
      "curl_setopt($ch, CURLOPT_POSTFIELDS, $data);\n"
    else if form_params ≠ [] then
      "$data = http_build_query([\n" ++
      String.join (form_params.map (fun kv => "    '" ++ kv.1 ++ "' => '" ++ kv.2 ++ "',\n")) ++
      "]);\n" ++ "curl_setopt($ch, CURLOPT_POSTFIELDS, $data);\n"
    else "")
  let code := code ++ "$response = curl_exec($ch);\n"
  let code := code ++ "curl_close($ch);\n"
  let code := code ++ "echo 'Response Body: ' . $response;\n"
  let code := code ++ "?>\n"
  code

/-- The Python renderer's output on an empty header map, with the header
emission resolved: the output still assigns `headers = \x7b\x7d` and passes
`headers=headers` to the call.  Used to state the amended C3. -/
def pythonEmptyHeaderCode (url method : String) (query_params : List (String × String))
    (body_param : Option String) (form_params : List (String × String)) : String :=
  let code := "import requests\n\n"
  let code := code ++ ("url = '" ++ url ++ "'\n")
  let code := code ++ (if query_params ≠ [] then "params = " ++ jsonDumps query_params ++ "\n"
    else "params = \x7b\x7d\n")
  let code := code ++ "headers = \x7b\x7d\n"
  let code := code ++ (if truthyOpt body_param then "json_body = " ++ body_param.getD "" ++ "\n"
    else "json_body = None\n")
  let code := code ++ (if form_params ≠ [] then "data = " ++ jsonDumps form_params ++ "\n"
    else "data = None\n")
  let code := code ++ ("response = requests." ++ method ++ "(\n")
  let code := code ++ "    url,\n"
  let code := code ++ "    params=params,\n"
  let code := code ++ "    headers=headers,\n"
  let code := code ++ (if truthyOpt body_param then "    json=json_body,\n" else "")
  let code := code ++ (if form_params ≠ [] then "    data=data,\n" else "")
  let code := code ++ ")\n"
  let code := code ++ "print('Status Code:', response.status_code)\n"
  let code := code ++ "print('Response Body:', response.text)\n"
  code

/-- The Python renderer's output when the body value is truthy and the form
map is non-empty, with those branches resolved: both the JSON body and the
form payload are emitted and both `json=` and `data=` are passed to the
call.  Used to state the amended C1. -/
def pythonBodyFormCode (url method : String) (query_params header_params : List (String × String))
    (bodyText : String) (form_params : List (String × String)) : String :=
  let code := "import requests\n\n"
  let code := code ++ ("url = '" ++ url ++ "'\n")
  let code := code ++ (if query_params ≠ [] then "params = " ++ jsonDumps query_params ++ "\n"
    else "params = \x7b\x7d\n")
  let code := code ++ (if header_params ≠ [] then "headers = " ++ jsonDumps header_params ++ "\n"
    else "headers = \x7b\x7d\n")
  let code := code ++ ("json_body = " ++ bodyText ++ "\n")
  let code := code ++ ("data = " ++ jsonDumps form_params ++ "\n")
  let code := code ++ ("response = requests." ++ method ++ "(\n")
  let code := code ++ "    url,\n"
  let code := code ++ "    params=params,\n"
  let code := code ++ "    headers=headers,\n"
  let code := code ++ "    json=json_body,\n"
  let code := code ++ "    data=data,\n"
  let code := code ++ ")\n"
  let code := code ++ "print('Status Code:', response.status_code)\n"
  let code := code ++ "print('Response Body:', response.text)\n"
  code

/-- `s` ends with `t`. -/
def strEndsWith (s t : String) : Prop := ∃ pre, s = pre ++ t

/-- The constant final lines of the Python renderer: prints status code and
response body. -/
def pythonEpilogue : String :=
  "print('Status Code:', response.status_code)\nprint('Response Body:', response.text)\n"

/-- The constant final lines of the C# renderer: prints status code and
response body, then closes the braces. -/
def csharpEpilogue : String :=
  "        var responseString = await response.Content.ReadAsStringAsync();\n        Console.WriteLine($\"Status Code: \x7bresponse.StatusCode\x7d\");\n        Console.WriteLine($\"Response Body: \x7bresponseString\x7d\");\n    \x7d\n\x7d\n"

/-- The constant final lines of the JavaScript renderer: logs the response
body (and errors), but never the status code. -/
def jsEpilogue : String :=
  "fetch(url, options)\n    .then(response => response.text())\n    .then(text => \x7b\n        console.log('Response Body:', text);\n    \x7d)\n    .catch(err => console.error('Error:', err));\n"

/-- The constant final lines of the PHP renderer: echoes the response body,
but never the status code. -/
def phpEpilogue : String :=
  "$response = curl_exec($ch);\ncurl_close($ch);\necho 'Response Body: ' . $response;\n?>\n"

/-- A parameter object with just `name` and `in`, for concrete documents. -/
def paramObj (name loc : String) : JVal :=
  .obj [("name", .str name), ("in", .str loc)]

/-- Swagger 2.0 document of the spec's base-URL example: no `servers`,
`host="api.example.com"`, `basePath="/v1"`, `schemes=["https"]`. -/
def exSwagger : SpecDoc :=
  { paths := none
    servers := none
    host := some "api.example.com"
    basePath := some "/v1"
    schemes := some ["https"] }

/-- A document whose `servers` key is present but holds an empty list. -/
def exServersEmpty : SpecDoc :=
  { paths := none
    servers := some []
    host := some "h"
    basePath := none
    schemes := none }

/-- A document declaring one operation under the uppercase method key
`"GET"`. -/
def exUpperDoc : SpecDoc :=
  { paths := some [("/a", [("GET", [])])]
    servers := none
    host := some "h"
    basePath := none
    schemes := none }

/-- The descriptor `list_endpoints` produces for `exUpperDoc`. -/
def exUpperEndpoint : Endpoint :=
  { method := "GET", path := "/a", summary := .str "", operationId := .str "", parameters := .arr [] }

/-- A well-formed document with one parameterless `get` operation. -/
def exOkDoc : SpecDoc :=
  { paths := some [("/u", [("get", [])])]
    servers := none
    host := some "h"
    basePath := none
    schemes := none }

/-- The descriptor `list_endpoints` produces for `exOkDoc`. -/
def exOkEndpoint : Endpoint :=
  { method := "GET", path := "/u", summary := .str "", operationId := .str "", parameters := .arr [] }

/-- The empty document (no keys at all). -/
def exNoPaths : SpecDoc :=
  { paths := none, servers := none, host := none, basePath := none, schemes := none }

/-- The spec's path-substitution example document: path `/users/\x7bid\x7d`
with one `path` parameter `id`, resolved against the Swagger 2.0 base-URL
fields. -/
def exPathDoc : SpecDoc :=
  { paths := some [("/users/\x7bid\x7d", [("get", [("parameters", .arr [paramObj "id" "path"])])])]
    servers := none
    host := some "api.example.com"
    basePath := some "/v1"
    schemes := some ["https"] }

/-- The descriptor `list_endpoints` produces for `exPathDoc`. -/
def exPathEndpoint : Endpoint :=
  { method := "GET", path := "/users/\x7bid\x7d", summary := .str "", operationId := .str ""
    parameters := .arr [paramObj "id" "path"] }

/-- A JSON parse function that always fails with message `boom`. -/
def jpBoom : String → Except String JVal := fun _ => .error "boom"

/-- A YAML parse function that always fails with message `yboom`. -/
def ypBoom : String → Except String JVal := fun _ => .error "yboom"

/-- A YAML parse function that always succeeds with the empty object. -/
def ypEmpty : String → Except String JVal := fun _ => .ok (.obj [])

theorem strEndsWith_self_append (x t : String) : strEndsWith (x ++ t) t := ⟨x, rfl⟩

theorem strEndsWith_push {s t : String} (h : strEndsWith s t) (u : String) :
    strEndsWith (s ++ u) (t ++ u) := by
  obtain ⟨p, rfl⟩ := h
  exact ⟨p, String.append_assoc p t u⟩

theorem replaceAllFuel_of_not_contains (pat rep : List Char) :
    ∀ (fuel : Nat) (s : List Char), containsSub pat s = false → replaceAllFuel pat rep fuel s = s := by
  intro fuel
  induction fuel with
  | zero => intro s _; rfl
  | succ n ih =>
    intro s h
    cases s with
    | nil => rfl
    | cons c rest =>
      rw [containsSub, Bool.or_eq_false_iff] at h
      rw [replaceAllFuel, if_neg (by simp [h.1]), ih rest h.2]

theorem pyReplace_of_not_hasSubstr {s pat : String} (rep : String)
    (h : hasSubstr s pat = false) : pyReplace s pat rep = s := by
  cases s with
  | mk sd =>
    rw [pyReplace]
    split
    · rfl
    · exact String.ext (replaceAllFuel_of_not_contains _ _ _ _ h)

theorem substPath_of_no_placeholder :
    ∀ (pps : List (String × String)) (url : String),
      (∀ p ∈ pps, hasSubstr url ("\x7b" ++ p.1 ++ "\x7d") = false) → substPath pps url = url := by
  intro pps
  induction pps with
  | nil => intro url _; rfl
  | cons p rest ih =>
    intro url h
    obtain ⟨name, value⟩ := p
    rw [substPath, pyReplace_of_not_hasSubstr value (h _ (List.mem_cons_self _ _))]
    exact ih url (fun q hq => h q (List.mem_cons_of_mem _ hq))

theorem bucketParams_append (pv : List (String × String)) :
    ∀ (xs ys : List JVal) (b : Buckets),
      bucketParams pv (xs ++ ys) b = (bucketParams pv xs b).bind (fun b' => bucketParams pv ys b') := by
  intro xs
  induction xs with
  | nil => intro ys b; rfl
  | cons p rest ih =>
    intro ys b
    rw [List.cons_append, bucketParams, bucketParams]
    cases bucketStep pv b p with
    | ok b' => exact ih ys b'
    | error e => rfl

theorem addPathEndpoints_eq (path : String) :
    ∀ (ms : List (String × Doc)) (acc : List Endpoint),
      addPathEndpoints path acc ms =
        acc ++ (ms.filter (fun mo => httpMethods.contains (pyLower mo.1))).map
          (fun mo => mkEndpoint mo.1 path mo.2) := by
  intro ms
  induction ms with
  | nil => intro acc; simp [addPathEndpoints]
  | cons mo rest ih =>
    intro acc
    obtain ⟨m, op⟩ := mo
    by_cases hm : httpMethods.contains (pyLower m) = true
    · have hm' : pyLower m ∈ httpMethods := by simpa using hm
      rw [addPathEndpoints, if_pos hm, ih]
      simp [List.filter_cons, hm']
    · have hm' : ¬ pyLower m ∈ httpMethods := by simpa using hm
      rw [addPathEndpoints, if_neg hm, ih]
      simp [List.filter_cons, hm']

theorem listEndpointsAux_eq :
    ∀ (ps : List (String × List (String × Doc))) (acc : List Endpoint),
      listEndpointsAux acc ps =
        acc ++ ps.flatMap (fun pm =>
          (pm.2.filter (fun mo => httpMethods.contains (pyLower mo.1))).map
            (fun mo => mkEndpoint mo.1 pm.1 mo.2)) := by
  intro ps
  induction ps with
  | nil => intro acc; simp [listEndpointsAux]
  | cons pm rest ih =>
    intro acc
    obtain ⟨path, methods⟩ := pm
    rw [listEndpointsAux, ih, addPathEndpoints_eq]
    simp [List.append_assoc]

/-- C4: for every parsed specification document, `list_endpoints` returns
exactly one descriptor per (path, method) pair whose method key is
case-insensitively one of the seven HTTP verbs and none for any other key,
in document declaration order (the filter/map characterization below states
exactly that); the descriptor's method is the uppercased key, and a missing
`summary`, `operationId` or `parameters` field defaults to `''`, `''`, `[]`
without error. -/
theorem claim_C4 :
    (∀ spec : SpecDoc, list_endpoints spec =
      (spec.paths.getD []).flatMap (fun pm =>
        (pm.2.filter (fun mo => httpMethods.contains (pyLower mo.1))).map
          (fun mo => mkEndpoint mo.1 pm.1 mo.2))) ∧
    (∀ (method path : String) (operation : Doc),
      (mkEndpoint method path operation).method = pyUpper method ∧
      (mkEndpoint method path operation).path = path) ∧
    (∀ (method path : String) (operation : Doc), lookupKey operation "summary" = none →
      (mkEndpoint method path operation).summary = .str "") ∧
    (∀ (method path : String) (operation : Doc), lookupKey operation "operationId" = none →
      (mkEndpoint method path operation).operationId = .str "") ∧
    (∀ (method path : String) (operation : Doc), lookupKey operation "parameters" = none →
      (mkEndpoint method path operation).parameters = .arr []) := by
  refine ⟨?_, ?_, ?_, ?_, ?_⟩
  · intro spec
    rw [list_endpoints, listEndpointsAux_eq, List.nil_append]
  · intro method path operation
    exact ⟨rfl, rfl⟩
  · intro method path operation h
    simp [mkEndpoint, getKeyD, h]
  · intro method path operation h
    simp [mkEndpoint, getKeyD, h]
  · intro method path operation h
    simp [mkEndpoint, getKeyD, h]

/-- Witness for C4 at a concrete operation with no `summary`, `operationId`
or `parameters` key, and at a concrete document. -/
theorem claim_C4_witness :
    (mkEndpoint "get" "/a" []).summary = .str "" ∧
    (mkEndpoint "get" "/a" []).operationId = .str "" ∧
    (mkEndpoint "get" "/a" []).parameters = .arr [] :=
  ⟨claim_C4.2.2.1 "get" "/a" [] rfl,
   claim_C4.2.2.2.1 "get" "/a" [] rfl,
   claim_C4.2.2.2.2 "get" "/a" [] rfl⟩

/-- C5: path substitution processes the bucketed path parameters in
declaration order, each step replacing every occurrence of the braced name
by the raw (unescaped) value via `str.replace`; a URL containing none of the
parameters' placeholders is left unchanged (so unresolved placeholders stay
verbatim, substitution never errors, and once no placeholder remains another
pass is the identity); concretely, `/users/\x7bid\x7d/posts/\x7bid\x7d/\x7bextra\x7d`
with `id=42` becomes `/users/42/posts/42/\x7bextra\x7d`, values are spliced
unescaped, and a full `generate_script` run on the spec's example yields a
URL containing `/users/42` and no remaining `\x7bid\x7d`. -/
theorem claim_C5 :
    (∀ (name value : String) (rest : List (String × String)) (url : String),
      substPath ((name, value) :: rest) url =
        substPath rest (pyReplace url ("\x7b" ++ name ++ "\x7d") value)) ∧
    (∀ (pps : List (String × String)) (url : String),
      (∀ p ∈ pps, hasSubstr url ("\x7b" ++ p.1 ++ "\x7d") = false) → substPath pps url = url) ∧
    substPath [("id", "42")] "/users/\x7bid\x7d/posts/\x7bid\x7d/\x7bextra\x7d" =
      "/users/42/posts/42/\x7bextra\x7d" ∧
    substPath [("id", "a b?&")] "/u/\x7bid\x7d" = "/u/a b?&" ∧
    hasSubstr (okString (generate_script exPathDoc exPathEndpoint [("id", "42")] "Python"))
      "/users/42" = true ∧
    hasSubstr (okString (generate_script exPathDoc exPathEndpoint [("id", "42")] "Python"))
      "\x7bid\x7d" = false := by
  refine ⟨fun name value rest url => rfl, substPath_of_no_placeholder, ?_, ?_, ?_, ?_⟩
  · decide
  · decide
  · decide
  · decide

/-- Witness for C5: a URL without the parameter's placeholder is returned
unchanged. -/
theorem claim_C5_witness : substPath [("q", "1")] "/plain" = "/plain" :=
  claim_C5.2.1 [("q", "1")] "/plain" (by decide)

/-- C6 fails as stated: in `exServersEmpty` the `servers` key is present
(holding an empty list), the claim's reading (`servers[0].url`, i.e. an
`IndexError` on the empty list) differs from the code, which falls through
to the Swagger 2.0 synthesis and returns `https://h`. -/
theorem claim_C6_counterexample :
    exServersEmpty.servers = some [] ∧
    resolveBaseUrl exServersEmpty = .ok "https://h" ∧
    errOf (baseUrlClaimC6 exServersEmpty) = some .indexError := by
  exact ⟨rfl, rfl, rfl⟩

/-- C6 amended: the base URL is `servers[0].url` when the `servers` key is
present with a non-empty list; otherwise (absent key or empty list) it is
`schemes[0] ++ "://" ++ host ++ basePath` with `basePath` defaulting to `""`
and `schemes` to `["https"]`, `host` unvalidated; the spec's example
resolves to `https://api.example.com/v1`. -/
theorem claim_C6 :
    (∀ spec : SpecDoc, resolveBaseUrl spec = baseUrlAmendedC6 spec) ∧
    resolveBaseUrl exSwagger = .ok "https://api.example.com/v1" ∧
    (∀ h : String,
      resolveBaseUrl { paths := none, servers := none, host := some h, basePath := none, schemes := none } =
        .ok ("https://" ++ h)) := by
  refine ⟨?_, rfl, ?_⟩
  · intro spec
    rw [resolveBaseUrl, baseUrlAmendedC6]
    cases hs : spec.servers with
    | none => rfl
    | some l => cases l with
      | nil => rfl
      | cons srv rest => rfl
  · intro h
    show Except.ok ("https" ++ "://" ++ h ++ "") = Except.ok ("https://" ++ h)
    have e1 : ("https" ++ "://" : String) = "https://" := by decide
    rw [String.append_empty, e1]

/-- C7: each parameter's value is looked up in the value map by name with
default `''`, and the parameter is bucketed by its `in` field: `path` appends
to the ordered substitution list, `query`/`header`/`formData` insert into the
respective maps, `body` overwrites the single body value (so the last body
parameter wins, stated for an arbitrary preceding parameter list), and any
other `in` value leaves all buckets unchanged. -/
theorem claim_C7 :
    ∀ (pv : List (String × String)) (b : Buckets) (n : String),
    (bucketParams pv [paramObj n "path"] b =
      .ok { b with path_params := b.path_params ++ [(n, (lookupVal pv n).getD "")] }) ∧
    (bucketParams pv [paramObj n "query"] b =
      .ok { b with query_params := dictInsert b.query_params n ((lookupVal pv n).getD "") }) ∧
    (bucketParams pv [paramObj n "header"] b =
      .ok { b with header_params := dictInsert b.header_params n ((lookupVal pv n).getD "") }) ∧
    (bucketParams pv [paramObj n "body"] b =
      .ok { b with body_param := some ((lookupVal pv n).getD "") }) ∧
    (bucketParams pv [paramObj n "formData"] b =
      .ok { b with form_params := dictInsert b.form_params n ((lookupVal pv n).getD "") }) ∧
    (∀ loc : String, loc ∉ ["path", "query", "header", "body", "formData"] →
      bucketParams pv [paramObj n loc] b = .ok b) ∧
    (∀ ps : List JVal, bucketParams pv (ps ++ [paramObj n "body"]) b =
      (bucketParams pv ps b).map
        (fun b' => { b' with body_param := some ((lookupVal pv n).getD "") })) := by
  intro pv b n
  refine ⟨rfl, rfl, rfl, rfl, rfl, ?_, ?_⟩
  · intro loc hloc
    simp only [List.mem_cons, List.mem_singleton, not_or] at hloc
    obtain ⟨h1, h2, h3, h4, h5⟩ := hloc
    simp [bucketParams, bucketStep, paramObj, lookupKey, jvalIsStr, h1, h2, h3, h4, h5]
  · intro ps
    rw [bucketParams_append]
    cases hb : bucketParams pv ps b with
    | ok b' => rfl
    | error e => rfl

/-- Witness for C7: a parameter whose `in` is `cookie` is silently dropped. -/
theorem claim_C7_witness :
    bucketParams [] [paramObj "x" "cookie"] Buckets.empty = .ok Buckets.empty :=
  (claim_C7 [] Buckets.empty "x").2.2.2.2.2.1 "cookie" (by decide)

/-- C10: `generate_script` reads only the method and path of the descriptor
(never its `parameters`, `summary` or `operationId`), re-reading the
operation from `spec['paths'][path][method.lower()]`; on a document whose
method key is written `"GET"`, `list_endpoints` produces a descriptor but
`generate_script` on that descriptor raises `KeyError('get')`. -/
theorem claim_C10 :
    (∀ (spec : SpecDoc) (pv : List (String × String)) (lang : String) (e1 e2 : Endpoint),
      e1.method = e2.method → e1.path = e2.path →
      generate_script spec e1 pv lang = generate_script spec e2 pv lang) ∧
    list_endpoints exUpperDoc = [exUpperEndpoint] ∧
    errOf (generate_script exUpperDoc exUpperEndpoint [] "Python") = some (.keyError "get") := by
  refine ⟨?_, rfl, rfl⟩
  intro spec pv lang e1 e2 hm hp
  cases e1
  cases e2
  simp only [Endpoint.method, Endpoint.path] at hm hp
  subst hm
  subst hp
  rfl

/-- Witness for C10: two descriptors differing only in their `parameters`
field generate identical results. -/
theorem claim_C10_witness :
    generate_script exUpperDoc exUpperEndpoint [] "PHP" =
      generate_script exUpperDoc
        { method := "GET", path := "/a", summary := .str "", operationId := .str ""
          parameters := .arr [paramObj "x" "query"] } [] "PHP" :=
  claim_C10.1 exUpperDoc [] "PHP" _ _ rfl rfl

/-- C8 fails as stated: on a document with no `paths` key and the
unrecognized language `"Rust"`, `generate_script` fails with
`KeyError('paths')` — not with the unsupported-language error — because the
operation lookup precedes the language dispatch. -/
theorem claim_C8_counterexample :
    isUnsupportedLangErr (generate_script exNoPaths exOkEndpoint [] "Rust") = false ∧
    errOf (generate_script exNoPaths exOkEndpoint [] "Rust") = some (.keyError "paths") ∧
    ¬ "Rust" ∈ supportedLanguages := by
  exact ⟨rfl, rfl, by decide⟩

/-- C8 amended: when the pre-dispatch stage (base URL, operation lookup,
parameter bucketing) succeeds, `generate_script` fails with the
unsupported-language error exactly when the language is not one of the four
recognized names, and returns source text for each of the four.  (The call
itself is pure: only the caller writes files, and only on success.) -/
theorem claim_C8 :
    ∀ (spec : SpecDoc) (e : Endpoint) (pv : List (String × String)) (lang : String)
      (t : String × String × Buckets),
    genPrep spec e pv = .ok t →
    ((isUnsupportedLangErr (generate_script spec e pv lang) = true ↔ lang ∉ supportedLanguages) ∧
     (lang ∈ supportedLanguages → ∃ s, generate_script spec e pv lang = .ok s)) := by
  intro spec e pv lang t hok
  obtain ⟨url, method, b⟩ := t
  have hgs : generate_script spec e pv lang = renderCode lang url method b := by
    rw [generate_script, hok]
  rw [hgs]
  by_cases h1 : lang = "Python"
  · subst h1; simp [renderCode, isUnsupportedLangErr, supportedLanguages]
  · by_cases h2 : lang = "C#"
    · subst h2; simp [renderCode, isUnsupportedLangErr, supportedLanguages]
    · by_cases h3 : lang = "JavaScript"
      · subst h3; simp [renderCode, isUnsupportedLangErr, supportedLanguages]
      · by_cases h4 : lang = "PHP"
        · subst h4; simp [renderCode, isUnsupportedLangErr, supportedLanguages]
        · simp [renderCode, isUnsupportedLangErr, supportedLanguages, h1, h2, h3, h4]

/-- Witness for C8 on a well-formed document: `"Rust"` yields the
unsupported-language failure and `"Python"` yields source text. -/
theorem claim_C8_witness :
    isUnsupportedLangErr (generate_script exOkDoc exOkEndpoint [] "Rust") = true ∧
    (∃ s, generate_script exOkDoc exOkEndpoint [] "Python" = .ok s) :=
  ⟨(claim_C8 exOkDoc exOkEndpoint [] "Rust" ("https://h/u", "get", Buckets.empty) rfl).1.mpr
      (by decide),
   (claim_C8 exOkDoc exOkEndpoint [] "Python" ("https://h/u", "get", Buckets.empty) rfl).2
      (by decide)⟩

/-- C9: with a 200 response, `fetch_spec` fails with a parse error exactly
when every format chosen by the detection policy fails to parse, and the
error carries the underlying parser message: the JSON branch (JSON condition
holds) reports the JSON parser's message, the YAML branch reports the YAML
parser's message, and the fallback branch (neither condition holds) tries
JSON first and, when both fail, reports the YAML parser's message. -/
theorem claim_C9 :
    ∀ (ct url text : String) (jp yp : String → Except String JVal),
    ((∃ m, fetch_spec 200 ct url text jp yp = .error (.parseError m)) ↔
      (∀ f ∈ chosenFormats ct url, exceptOk (runFormat jp yp f text) = false)) ∧
    (∀ e, jsonDetect ct url = true → jp text = .error e →
      fetch_spec 200 ct url text jp yp =
        .error (.parseError ("Failed to parse JSON specification: " ++ e))) ∧
    (∀ e, jsonDetect ct url = false → yamlDetect ct url = true → yp text = .error e →
      fetch_spec 200 ct url text jp yp =
        .error (.parseError ("Failed to parse YAML specification: " ++ e))) ∧
    (∀ e e2, jsonDetect ct url = false → yamlDetect ct url = false →
      jp text = .error e2 → yp text = .error e →
      fetch_spec 200 ct url text jp yp =
        .error (.parseError ("Failed to parse specification as JSON or YAML: " ++ e))) := by
  intro ct url text jp yp
  have h200 : fetch_spec 200 ct url text jp yp = parseSpecText ct url text jp yp := rfl
  refine ⟨?_, ?_, ?_, ?_⟩
  · rw [h200]
    by_cases hj : jsonDetect ct url = true
    · cases hjp : jp text with
      | ok v => simp [parseSpecText, chosenFormats, runFormat, exceptOk, hj, hjp]
      | error e => simp [parseSpecText, chosenFormats, runFormat, exceptOk, hj, hjp]
    · rw [Bool.not_eq_true] at hj
      by_cases hy : yamlDetect ct url = true
      · cases hyp : yp text with
        | ok v => simp [parseSpecText, chosenFormats, runFormat, exceptOk, hj, hy, hyp]
        | error e => simp [parseSpecText, chosenFormats, runFormat, exceptOk, hj, hy, hyp]
      · rw [Bool.not_eq_true] at hy
        cases hjp : jp text with
        | ok v => simp [parseSpecText, chosenFormats, runFormat, exceptOk, hj, hy, hjp]
        | error e2 =>
          cases hyp : yp text with
          | ok v => simp [parseSpecText, chosenFormats, runFormat, exceptOk, hj, hy, hjp, hyp]
          | error e => simp [parseSpecText, chosenFormats, runFormat, exceptOk, hj, hy, hjp, hyp]
  · intro e hj hjp
    rw [h200]
    simp [parseSpecText, hj, hjp]
  · intro e hj hy hyp
    rw [h200]
    simp [parseSpecText, hj, hy, hyp]
  · intro e e2 hj hy hjp hyp
    rw [h200]
    simp [parseSpecText, hj, hy, hjp, hyp]

/-- Witness for C9: a JSON content type routes to the JSON parser and its
failure message; no detection match falls back to JSON then YAML, reporting
the YAML message when both fail. -/
theorem claim_C9_witness :
    fetch_spec 200 "application/json" "u" "t" jpBoom ypEmpty =
      .error (.parseError "Failed to parse JSON specification: boom") ∧
    fetch_spec 200 "" "u" "t" jpBoom ypBoom =
      .error (.parseError "Failed to parse specification as JSON or YAML: yboom") :=
  ⟨(claim_C9 "application/json" "u" "t" jpBoom ypEmpty).2.1 "boom" (by decide) rfl,
   (claim_C9 "" "u" "t" jpBoom ypBoom).2.2.2 "yboom" "boom" (by decide) (by decide) rfl rfl⟩

/-- C1 fails as stated: with a non-empty body and non-empty form map the
Python renderer emits the form payload as well — its output differs from the
body-only output and contains both the form `data = ...` assignment and the
`data=data` call argument. -/
theorem claim_C1_counterexample :
    generate_python_code "u" "get" [] [] (some "1") [("f", "v")] ≠
      generate_python_code "u" "get" [] [] (some "1") [] ∧
    hasSubstr (generate_python_code "u" "get" [] [] (some "1") [("f", "v")])
      "    data=data,\n" = true ∧
    hasSubstr (generate_python_code "u" "get" [] [] (some "1") [("f", "v")])
      "data = " = true := by
  refine ⟨by decide, by decide, by decide⟩

/-- C1 amended: with a non-empty body value, the C#, JavaScript and PHP
renderers ignore the form map entirely (their output equals the output with
an empty form map); the Python renderer instead emits both payloads — with a
non-empty form map its output is the resolved form with both the JSON body
assignment/argument and the form-data assignment/argument. -/
theorem claim_C1 :
    ∀ (url method : String) (q h : List (String × String)) (s : String)
      (form : List (String × String)), s ≠ "" →
    (generate_csharp_code url method q h (some s) form =
        generate_csharp_code url method q h (some s) [] ∧
      generate_javascript_code url method q h (some s) form =
        generate_javascript_code url method q h (some s) [] ∧
      generate_php_code url method q h (some s) form =
        generate_php_code url method q h (some s) []) ∧
    (form ≠ [] →
      generate_python_code url method q h (some s) form =
        pythonBodyFormCode url method q h s form) := by
  intro url method q h s form hs
  have ht : truthyOpt (some s) = true := by simp [truthyOpt, hs]
  refine ⟨⟨?_, ?_, ?_⟩, ?_⟩
  · simp [generate_csharp_code, ht]
  · simp [generate_javascript_code, ht]
  · simp [generate_php_code, ht]
  · intro hform
    simp [generate_python_code, pythonBodyFormCode, ht, hform]

/-- Witness for C1 at a concrete bound shape with both payloads present. -/
theorem claim_C1_witness :
    generate_csharp_code "u" "get" [] [] (some "1") [("f", "v")] =
      generate_csharp_code "u" "get" [] [] (some "1") [] ∧
    generate_python_code "u" "get" [] [] (some "1") [("f", "v")] =
      pythonBodyFormCode "u" "get" [] [] "1" [("f", "v")] :=
  ⟨(claim_C1 "u" "get" [] [] "1" [("f", "v")] (by decide)).1.1,
   (claim_C1 "u" "get" [] [] "1" [("f", "v")] (by decide)).2 (by decide)⟩

/-- C2 fails as stated: the JavaScript and PHP outputs never mention the
status code at all (no occurrence of `Status`), so they cannot end with code
printing it. -/
theorem claim_C2_counterexample :
    hasSubstr (generate_javascript_code "u" "get" [] [] none []) "Status" = false ∧
    hasSubstr (generate_php_code "u" "get" [] [] none []) "Status" = false := by
  exact ⟨by decide, by decide⟩

/-- C2 amended: every output ends with a fixed epilogue that prints the
response body; the Python and C# epilogues also print the HTTP status code,
while the JavaScript and PHP epilogues print only the response body (no
status). -/
theorem claim_C2 :
    (∀ (url method : String) (q h : List (String × String)) (b : Option String)
      (f : List (String × String)),
      strEndsWith (generate_python_code url method q h b f) pythonEpilogue ∧
      strEndsWith (generate_csharp_code url method q h b f) csharpEpilogue ∧
      strEndsWith (generate_javascript_code url method q h b f) jsEpilogue ∧
      strEndsWith (generate_php_code url method q h b f) phpEpilogue) ∧
    (hasSubstr pythonEpilogue "Status Code" = true ∧
      hasSubstr pythonEpilogue "Response Body" = true) ∧
    (hasSubstr csharpEpilogue "Status Code" = true ∧
      hasSubstr csharpEpilogue "Response Body" = true) ∧
    (hasSubstr jsEpilogue "Status" = false ∧
      hasSubstr jsEpilogue "Response Body" = true) ∧
    (hasSubstr phpEpilogue "Status" = false ∧
      hasSubstr phpEpilogue "Response Body" = true) := by
  refine ⟨?_, by decide, by decide, by decide, by decide⟩
  intro url method q h b f
  refine ⟨?_, ?_, ?_, ?_⟩
  · have hp : pythonEpilogue =
        "print('Status Code:', response.status_code)\n" ++
          "print('Response Body:', response.text)\n" := rfl
    rw [hp]
    exact strEndsWith_push (strEndsWith_self_append _ _) _
  · have hp : csharpEpilogue =
        "        var responseString = await response.Content.ReadAsStringAsync();\n" ++
          "        Console.WriteLine($\"Status Code: \x7bresponse.StatusCode\x7d\");\n" ++
          "        Console.WriteLine($\"Response Body: \x7bresponseString\x7d\");\n" ++
          "    \x7d\n\x7d\n" := rfl
    rw [hp]
    exact strEndsWith_push (strEndsWith_push (strEndsWith_push
      (strEndsWith_self_append _ _) _) _) _
  · have hp : jsEpilogue =
        "fetch(url, options)\n" ++
          "    .then(response => response.text())\n" ++
          "    .then(text => \x7b\n" ++
          "        console.log('Response Body:', text);\n" ++
          "    \x7d)\n" ++
          "    .catch(err => console.error('Error:', err));\n" := rfl
    rw [hp]
    exact strEndsWith_push (strEndsWith_push (strEndsWith_push (strEndsWith_push
      (strEndsWith_push (strEndsWith_self_append _ _) _) _) _) _) _
  · have hp : phpEpilogue =
        "$response = curl_exec($ch);\n" ++
          "curl_close($ch);\n" ++
          "echo 'Response Body: ' . $response;\n" ++
          "?>\n" := rfl
    rw [hp]
    exact strEndsWith_push (strEndsWith_push (strEndsWith_push
      (strEndsWith_self_append _ _) _) _) _

/-- C3 fails as stated: the Python renderer still emits header code when the
header map is empty — an empty `headers` dict assignment and the
`headers=headers` call argument. -/
theorem claim_C3_counterexample :
    hasSubstr (generate_python_code "u" "get" [] [] none []) "headers = \x7b\x7d" = true ∧
    hasSubstr (generate_python_code "u" "get" [] [] none []) "    headers=headers,\n" = true := by
  exact ⟨by decide, by decide⟩

/-- C3 amended: on an empty header map the C#, JavaScript and PHP outputs
contain no header-emitting code (they equal renderings with the header
section removed), while the Python output still assigns an empty headers
dict and passes `headers=headers` to the call. -/
theorem claim_C3 :
    ∀ (url method : String) (q : List (String × String)) (b : Option String)
      (f : List (String × String)),
    generate_csharp_code url method q [] b f = csharpNoHeaderCode url method q b f ∧
    generate_javascript_code url method q [] b f = jsNoHeaderCode url method q b f ∧
    generate_php_code url method q [] b f = phpNoHeaderCode url method q b f ∧
    generate_python_code url method q [] b f = pythonEmptyHeaderCode url method q b f := by
  intro url method q b f
  refine ⟨?_, ?_, ?_, ?_⟩
  · simp [generate_csharp_code, csharpNoHeaderCode, String.append_empty]
  · simp [generate_javascript_code, jsNoHeaderCode, String.append_empty]
  · simp [generate_php_code, phpNoHeaderCode, String.append_empty]
  · simp [generate_python_code, pythonEmptyHeaderCode]
